import Mathlib

/-!
Verification development for the clopshort backend (`src/app.js`).

The repository's `app.js` contains two complete variants of the backend,
concatenated one after the other:

* variant 1 (lines 1-659): Express + mongoose models (`User`, `Job`),
  background pipeline `processJobInBackground(jobId)` with statuses
  `pending → downloading → processing → completed/failed`, a credit
  refund in its catch block, `processSegment` producing storage keys
  `shorts/jobId/...`, and a daily retention sweep;
* variant 2 (lines 660-1225): Express + JSON-file store (`users.json`,
  `jobs.json`), background pipeline `processJobInBackground(job)` with
  statuses `pending → processing → completed/failed`, no refund, a
  `finally` cleanup of the temp directory, and storage keys
  `users/userId/jobId/...`.

The definitions below are shallow embeddings of those functions.  Each
definition's doc comment names the source lines it is translated from.
Fallible awaited calls (downloads, transcodes, persistence writes, the
temp-directory removal) are modelled by explicit oracles saying whether
the call succeeds, since the JavaScript control flow (try/catch/finally)
branches on exactly those outcomes.
-/

/-- Job status enumeration, from the `JobSchema` status enum
(`app.js` line 65-69) and the string statuses used by variant 2. -/
inductive Status where
  | pending
  | downloading
  | processing
  | completed
  | failed
  deriving DecidableEq, Repr

/-- Observable state of one background pipeline run: the job's current
persisted status, the ordered list of statuses that were saved to the
registry (starting with `pending` from job creation), whether the job's
temp directory was removed, the owner's credit balance, and how many
times a refund credited the owner. -/
structure PipeState where
  jobStatus : Status
  trace : List Status
  tempRemoved : Bool
  balance : Int
  refunds : Nat
  deriving DecidableEq, Repr

/-- Initial pipeline state for a freshly created job (status `pending`,
temp dir present, owner balance `b`, no refund yet). -/
def initPS (b : Int) : PipeState :=
  { jobStatus := .pending, trace := [.pending], tempRemoved := false,
    balance := b, refunds := 0 }

/-- Persist a status change (`job.status = s; await job.save()`). -/
def saveStatus (s : Status) (ps : PipeState) : PipeState :=
  { ps with jobStatus := s, trace := ps.trace ++ [s] }

/-- Failure points of variant 1's `processJobInBackground` try block
(`app.js` lines 383-451): the youtube download (line 400), any segment
transcode/upload (lines 423-440), or the final temp-dir removal
(line 450). -/
inductive FailPoint1 where
  | atDownload
  | atTranscode
  | atCleanup
  deriving DecidableEq, Repr

/-- The try block of variant 1's `processJobInBackground`
(`app.js` lines 384-450): save `downloading`, download the source,
save `processing`, process all segments, save `completed`, then remove
the temp directory.  An exception at failure point `fp` aborts the
block with the state reached so far (`Except.error`). -/
def tryBodyV1 (fp : Option FailPoint1) (ps : PipeState) : Except PipeState PipeState :=
  let ps1 := saveStatus .downloading ps
  if fp = some .atDownload then .error ps1 else
  let ps2 := saveStatus .processing ps1
  if fp = some .atTranscode then .error ps2 else
  let ps3 := saveStatus .completed ps2
  if fp = some .atCleanup then .error ps3 else
  .ok { ps3 with tempRemoved := true }

/-- The catch block of variant 1's `processJobInBackground`
(`app.js` lines 452-467): set the job's status to `failed`, save it,
and credit the owner's balance with `job.creditsUsed`.  There is no
`refunded` flag in the `JobSchema`, so nothing guards re-execution. -/
def catchV1 (creditsUsed : Int) (ps : PipeState) : PipeState :=
  let ps1 := saveStatus .failed ps
  { ps1 with balance := ps1.balance + creditsUsed, refunds := ps1.refunds + 1 }

/-- Variant 1's `processJobInBackground` (`app.js` lines 383-468):
run the try block; on an exception, run the catch block.  No `finally`
exists, so the temp directory is not touched on the failure path. -/
def runV1 (creditsUsed : Int) (fp : Option FailPoint1) (ps : PipeState) : PipeState :=
  match tryBodyV1 fp ps with
  | .ok ps1 => ps1
  | .error ps1 => catchV1 creditsUsed ps1

/-- Failure points of variant 2's `processJobInBackground` try block
(`app.js` lines 1064-1141): the youtube download (line 1085) or any
segment creation/upload (lines 1099-1128). -/
inductive FailPoint2 where
  | atDownload
  | atTranscode
  deriving DecidableEq, Repr

/-- The try block of variant 2's `processJobInBackground`
(`app.js` lines 1064-1141): save `processing` (there is no
`downloading` status in this variant), download, process all segments,
save `completed`. -/
def tryBodyV2 (fp : Option FailPoint2) (ps : PipeState) : Except PipeState PipeState :=
  let ps1 := saveStatus .processing ps
  if fp = some .atDownload then .error ps1 else
  if fp = some .atTranscode then .error ps1 else
  .ok (saveStatus .completed ps1)

/-- The catch block of variant 2's `processJobInBackground`
(`app.js` lines 1142-1156): record status `failed` and the error
message.  No refund of the owner's credits occurs anywhere in this
variant. -/
def catchV2 (ps : PipeState) : PipeState :=
  saveStatus .failed ps

/-- Variant 2's `processJobInBackground` (`app.js` lines 1061-1167):
try block, catch block on exception, and a `finally` block
(lines 1157-1166) that removes the temp directory on every path. -/
def runV2 (fp : Option FailPoint2) (ps : PipeState) : PipeState :=
  let ps1 :=
    match tryBodyV2 fp ps with
    | .ok x => x
    | .error x => catchV2 x
  { ps1 with tempRemoved := true }

/-- One planned segment as returned by variant 1's `processSegment`
(`app.js` lines 548-556), restricted to the plan-relevant fields. -/
structure PlannedSegment where
  index : Nat
  startTime : ℚ
  duration : ℚ
  deriving DecidableEq, Repr

/-- The start-time/duration computation of variant 1's `processSegment`
(`app.js` lines 483-485 and 551): `segmentSpacing = videoDuration /
totalSegments`, `startTime = (index - 1) * segmentSpacing`, and the
emitted duration is the configured `segmentDuration` unchanged — the
code performs no clamping against the source duration and no
zero-length check. -/
def processSegmentV1 (index : Nat) (segmentDuration : ℚ) (totalSegments : Nat)
    (videoDuration : ℚ) : PlannedSegment :=
  let segmentSpacing := videoDuration / (totalSegments : ℚ)
  let startTime := ((index : ℚ) - 1) * segmentSpacing
  { index := index, startTime := startTime, duration := segmentDuration }

/-- Variant 1's segment loop (`app.js` lines 423-440): indices
`1..segmentCount`, each planned by `processSegment`. -/
def planV1 (segmentCount : Nat) (segmentDuration : ℚ) (videoDuration : ℚ) :
    List PlannedSegment :=
  (List.range segmentCount).map fun i =>
    processSegmentV1 (i + 1) segmentDuration segmentCount videoDuration

/-- Variant 2's segment loop (`app.js` lines 1093-1128): always five
segments of 30 seconds, `startTime = (duration / segmentCount) * i`
for `i = 0..4`, stored with index `i + 1`. -/
def planV2 (videoDuration : ℚ) : List PlannedSegment :=
  (List.range 5).map fun i =>
    { index := i + 1, startTime := (videoDuration / 5) * (i : ℚ), duration := 30 }

/-- Storage key of a segment clip in variant 1 (`app.js` line 542):
`shorts/jobId/segment_index.mp4`.  The owner's id does not occur in
the key. -/
def segmentKeyV1 (jobId : String) (index : Nat) : String :=
  "shorts/" ++ jobId ++ "/segment_" ++ toString index ++ ".mp4"

/-- Storage key of a thumbnail in variant 1 (`app.js` line 543):
`shorts/jobId/thumb_index.jpg`. -/
def thumbKeyV1 (jobId : String) (index : Nat) : String :=
  "shorts/" ++ jobId ++ "/thumb_" ++ toString index ++ ".jpg"

/-- Storage key of a segment clip in variant 2 (`app.js` line 1111):
`users/userId/jobId/short_i.mp4`. -/
def videoKeyV2 (userId jobId : String) (i : Nat) : String :=
  "users/" ++ userId ++ "/" ++ jobId ++ "/short_" ++ toString i ++ ".mp4"

/-- Storage key of a thumbnail in variant 2 (`app.js` line 1112):
`users/userId/jobId/thumb_i.jpg`. -/
def thumbKeyV2 (userId jobId : String) (i : Nat) : String :=
  "users/" ++ userId ++ "/" ++ jobId ++ "/thumb_" ++ toString i ++ ".jpg"

/-- Modelled from the spec: the Artifact Publisher key scheme
`ownerId/jobId/artifactName` of section 4.3, used only to compare the
keys the code actually produces against the scheme the spec claims. -/
def specKeyScheme (ownerId jobId artifactName : String) : String :=
  ownerId ++ "/" ++ jobId ++ "/" ++ artifactName

/-- A persisted job record as far as the submission path is concerned. -/
structure SubJob where
  userId : String
  creditsUsed : Int
  status : Status
  deriving DecidableEq, Repr

/-- Persisted store visible to the submission path: the requesting
owner's credit balance and the list of persisted job records. -/
structure Store where
  balance : Int
  jobs : List SubJob
  deriving DecidableEq, Repr

/-- Outcome of a submission request. -/
inductive SubmitOutcome where
  | accepted
  | insufficientCredits
  | serverError
  deriving DecidableEq, Repr

/-- Variant 1's `POST /api/jobs` handler (`app.js` lines 242-291):
reject with 402 if `credits < totalCost`; otherwise debit the user and
`await user.save()`, then build the job and `await job.save()`.  Each
save is a fallible awaited call (oracles `userSaveOk`, `jobSaveOk`);
a thrown save lands in the catch block (line 288-290), which answers
500 and performs no rollback of the earlier save. -/
def submitV1 (st : Store) (uid : String) (totalCost : Int)
    (userSaveOk jobSaveOk : Bool) : SubmitOutcome × Store :=
  if st.balance < totalCost then (.insufficientCredits, st)
  else if !userSaveOk then (.serverError, st)
  else
    let st1 : Store := { st with balance := st.balance - totalCost }
    if !jobSaveOk then (.serverError, st1)
    else (.accepted, { st1 with jobs := st1.jobs ++ [⟨uid, totalCost, .pending⟩] })

/-- Variant 2's `POST /api/jobs` handler (`app.js` lines 890-960):
fixed `totalCost = 25`; reject if `credits < totalCost`; otherwise
persist the job via `writeJobs`, then debit the user via `writeUsers`.
Each write is fallible (oracles `writeJobsOk`, `writeUsersOk`); a
thrown write lands in the catch block (line 957-959) with no
rollback. -/
def submitV2 (st : Store) (uid : String)
    (writeJobsOk writeUsersOk : Bool) : SubmitOutcome × Store :=
  let totalCost : Int := 25
  if st.balance < totalCost then (.insufficientCredits, st)
  else if !writeJobsOk then (.serverError, st)
  else
    let st1 : Store := { st with jobs := st.jobs ++ [⟨uid, totalCost, .pending⟩] }
    if !writeUsersOk then (.serverError, st1)
    else (.accepted, { st1 with balance := st1.balance - totalCost })

/-- One stored segment as the retention sweep sees it (`JobSchema`
segments, `app.js` lines 73-81): the clip's `storageKey` and the
thumbnail's key held in `thumbnailUrl`.  A missing key is modelled by
the empty string (JavaScript truthiness of `segment.storageKey`). -/
structure SweptSeg where
  storageKey : String
  thumbnailUrl : String
  deriving DecidableEq, Repr

/-- A job record as the retention sweep sees it: creation time in
milliseconds since the epoch, status, and stored segments. -/
structure SweepJob where
  createdAt : Int
  status : Status
  segments : List SweptSeg
  deriving DecidableEq, Repr

/-- The 7-day retention window in milliseconds (`app.js` line 622). -/
def retentionMs : Int := 7 * 24 * 60 * 60 * 1000

/-- Selection predicate of the daily cleanup task (`app.js`
lines 622-626): jobs with `createdAt < now - retentionMs` and
status `completed`. -/
def sweepSelected (now : Int) (j : SweepJob) : Bool :=
  decide (j.createdAt < now - retentionMs) && decide (j.status = .completed)

/-- Storage deletions attempted for one swept job (`app.js`
lines 630-642): for each segment, if `segment.storageKey` is truthy,
delete that key.  The thumbnail key in `thumbnailUrl` is never passed
to a delete command. -/
def attemptedDeletes (j : SweepJob) : List String :=
  (j.segments.filter fun s => s.storageKey ≠ "").map fun s => s.storageKey

/-- The daily cleanup task of variant 1 (`app.js` lines 620-651).
`deleteOk` is the oracle for the blob-store delete: a failing delete is
caught, logged and skipped (lines 638-640) and never blocks
`job.deleteOne()` (line 645).  Returns the job records remaining, the
storage keys whose deletion was attempted, and the keys actually
removed from storage. -/
def cleanupV1 (deleteOk : String → Bool) (now : Int) (jobs : List SweepJob) :
    List SweepJob × List String × List String :=
  let old := jobs.filter (sweepSelected now)
  let attempted := (old.map attemptedDeletes).flatten
  (jobs.filter fun j => !sweepSelected now j, attempted, attempted.filter deleteOk)

/-- `PRICES` from variant 1 (`app.js` line 94): credits per segment
keyed by segment duration in seconds. -/
def pricesV1 (d : Int) : Option Int :=
  if d = 15 then some 2 else if d = 30 then some 5 else if d = 60 then some 8 else none

/-- `PRICES[segmentDuration] || 5` (`app.js` line 247). -/
def costPerSegmentV1 (d : Int) : Int :=
  (pricesV1 d).getD 5

/-- `totalCost = costPerSegment * segmentCount` (`app.js` line 248). -/
def totalCostV1 (d c : Int) : Int :=
  costPerSegmentV1 d * c

/-- Mongoose validation of `JobSchema` (`app.js` lines 53-54): the
segment duration must be one of 15, 30, 60 and the segment count must
lie in 1..20; `job.save()` rejects any other configuration. -/
def validJobConfig (d c : Int) : Bool :=
  (pricesV1 d).isSome && decide (1 ≤ c) && decide (c ≤ 20)

/-- A ledger-relevant job record: the credits reserved at creation and
the current status. -/
structure LedgerJob where
  creditsUsed : Int
  status : Status
  deriving DecidableEq, Repr

/-- Ledger-relevant state of one owner: credit balance and that
owner's persisted jobs, indexed by position. -/
structure LedgerState where
  balance : Int
  jobs : List LedgerJob
  deriving DecidableEq, Repr

/-- Serial events touching an owner's balance in variant 1: a
submission with a requested configuration (`POST /api/jobs`,
lines 242-291), the successful completion of a job (lines 443-445),
or the failure handler running for a job (lines 452-467). -/
inductive LedgerEvent where
  | submit (d c : Int)
  | complete (k : Nat)
  | fail (k : Nat)
  deriving DecidableEq, Repr

/-- Apply one serial event to an owner's ledger state, following
variant 1: `submit` rejects before any debit when
`credits < totalCost` (lines 251-256); otherwise the debit is saved
(lines 259-260) and the job is persisted only if it passes schema
validation (line 273) — a validation failure leaves the debit in
place with no job.  `complete` sets the status.  `fail` runs the
failure handler: status `failed` and balance credited with the job's
`creditsUsed` (lines 457-465). -/
def applyEvent (s : LedgerState) : LedgerEvent → LedgerState
  | .submit d c =>
      let cost := totalCostV1 d c
      if s.balance < cost then s
      else
        let s1 : LedgerState := { s with balance := s.balance - cost }
        if validJobConfig d c then
          { s1 with jobs := s1.jobs ++ [⟨cost, .pending⟩] }
        else s1
  | .complete k =>
      match s.jobs[k]? with
      | none => s
      | some j => { s with jobs := s.jobs.set k { j with status := .completed } }
  | .fail k =>
      match s.jobs[k]? with
      | none => s
      | some j =>
          { balance := s.balance + j.creditsUsed,
            jobs := s.jobs.set k { j with status := .failed } }

/-- Run a serial sequence of ledger events. -/
def runEvents (s : LedgerState) : List LedgerEvent → LedgerState
  | [] => s
  | e :: es => runEvents (applyEvent s e) es

/-- Ledger sanity: the balance is non-negative and every persisted job
reserved a non-negative amount of credits. -/
def goodState (s : LedgerState) : Prop :=
  0 ≤ s.balance ∧ ∀ j ∈ s.jobs, 0 ≤ j.creditsUsed

instance (s : LedgerState) : Decidable (goodState s) := by
  unfold goodState
  infer_instance

/-- A job record as the job-detail route sees it: its id and its
owner's id. -/
structure JobView where
  id : String
  userId : String
  deriving DecidableEq, Repr

/-- Variant 1's `GET /api/jobs/:id` lookup (`app.js` lines 296-299):
`Job.findOne` matching both the requested id and the requesting
user's id; no match answers 404 (lines 301-306). -/
def getJobV1 (jobs : List JobView) (requester jobId : String) : Option JobView :=
  jobs.find? fun j => decide (j.id = jobId) && decide (j.userId = requester)

/-- Variant 2's `GET /api/jobs/:id` lookup (`app.js` lines 983-984):
`jobs.find(j => j.id === req.params.id && j.userId === req.user.id)`;
no match answers 404 (lines 986-991). -/
def getJobV2 (jobs : List JobView) (requester jobId : String) : Option JobView :=
  jobs.find? fun j => decide (j.id = jobId) && decide (j.userId = requester)

/-! ## Helper lemmas -/

/-- In a character list of shape `a ++ '/' :: r`, when `a` contains no
slash, the part before the first slash determines `a` and the rest. -/
theorem slashSplit (a : List Char) :
    ∀ (b r s : List Char), '/' ∉ a → '/' ∉ b →
      a ++ '/' :: r = b ++ '/' :: s → a = b ∧ r = s := by
  induction a with
  | nil =>
    intro b r s _ hb h
    cases b with
    | nil => simpa using h
    | cons c bs =>
      simp only [List.nil_append, List.cons_append, List.cons.injEq] at h
      exact absurd (h.1 ▸ List.mem_cons_self c bs) hb
  | cons c as ih =>
    intro b r s ha hb h
    cases b with
    | nil =>
      simp only [List.cons_append, List.nil_append, List.cons.injEq] at h
      exact absurd (h.1 ▸ List.mem_cons_self c as) ha
    | cons d bs =>
      simp only [List.cons_append, List.cons.injEq] at h
      have ha' : '/' ∉ as := fun hx => ha (List.mem_cons_of_mem c hx)
      have hb' : '/' ∉ bs := fun hx => hb (List.mem_cons_of_mem d hx)
      obtain ⟨hab, hrs⟩ := ih bs r s ha' hb' h.2
      exact ⟨by rw [h.1, hab], hrs⟩

/-- Variant 1 clip keys of distinct slash-free job ids are distinct. -/
theorem segmentKeyV1_inj (j1 j2 : String) (i1 i2 : Nat)
    (h1 : '/' ∉ j1.data) (h2 : '/' ∉ j2.data) (hne : j1 ≠ j2) :
    segmentKeyV1 j1 i1 ≠ segmentKeyV1 j2 i2 := by
  intro heq
  apply hne
  have hd := congrArg String.data heq
  simp only [segmentKeyV1, String.data_append, List.append_assoc, List.cons_append,
    List.nil_append, List.cons.injEq, true_and] at hd
  exact congrArg String.mk (slashSplit _ _ _ _ h1 h2 hd).1

/-- Variant 2 clip keys under distinct slash-free owner ids or job ids
are distinct. -/
theorem videoKeyV2_inj (u1 u2 j1 j2 : String) (i1 i2 : Nat)
    (hu1 : '/' ∉ u1.data) (hu2 : '/' ∉ u2.data)
    (hj1 : '/' ∉ j1.data) (hj2 : '/' ∉ j2.data)
    (hne : u1 ≠ u2 ∨ j1 ≠ j2) :
    videoKeyV2 u1 j1 i1 ≠ videoKeyV2 u2 j2 i2 := by
  intro heq
  have hd := congrArg String.data heq
  simp only [videoKeyV2, String.data_append, List.append_assoc, List.cons_append,
    List.nil_append, List.cons.injEq, true_and] at hd
  obtain ⟨hu, htail⟩ := slashSplit _ _ _ _ hu1 hu2 hd
  obtain ⟨hj, _⟩ := slashSplit _ _ _ _ hj1 hj2 htail
  rcases hne with h | h
  · exact h (congrArg String.mk hu)
  · exact h (congrArg String.mk hj)

/-- Variant 1 thumbnail keys of distinct slash-free job ids are
distinct. -/
theorem thumbKeyV1_inj (j1 j2 : String) (i1 i2 : Nat)
    (h1 : '/' ∉ j1.data) (h2 : '/' ∉ j2.data) (hne : j1 ≠ j2) :
    thumbKeyV1 j1 i1 ≠ thumbKeyV1 j2 i2 := by
  intro heq
  apply hne
  have hd := congrArg String.data heq
  simp only [thumbKeyV1, String.data_append, List.append_assoc, List.cons_append,
    List.nil_append, List.cons.injEq, true_and] at hd
  exact congrArg String.mk (slashSplit _ _ _ _ h1 h2 hd).1

/-- A variant 1 clip key never equals a variant 1 thumbnail key (for
slash-free job ids), even within the same job: after the job-id
component, one continues with `segment_` and the other with
`thumb_`. -/
theorem segmentThumbKeyV1_ne (j1 j2 : String) (i1 i2 : Nat)
    (h1 : '/' ∉ j1.data) (h2 : '/' ∉ j2.data) :
    segmentKeyV1 j1 i1 ≠ thumbKeyV1 j2 i2 := by
  intro heq
  have hd := congrArg String.data heq
  simp only [segmentKeyV1, thumbKeyV1, String.data_append, List.append_assoc,
    List.cons_append, List.nil_append, List.cons.injEq, true_and] at hd
  have htail := (slashSplit _ _ _ _ h1 h2 hd).2
  injection htail with hch _
  exact absurd hch (by decide)

/-- Variant 2 thumbnail keys under distinct slash-free owner ids or
job ids are distinct. -/
theorem thumbKeyV2_inj (u1 u2 j1 j2 : String) (i1 i2 : Nat)
    (hu1 : '/' ∉ u1.data) (hu2 : '/' ∉ u2.data)
    (hj1 : '/' ∉ j1.data) (hj2 : '/' ∉ j2.data)
    (hne : u1 ≠ u2 ∨ j1 ≠ j2) :
    thumbKeyV2 u1 j1 i1 ≠ thumbKeyV2 u2 j2 i2 := by
  intro heq
  have hd := congrArg String.data heq
  simp only [thumbKeyV2, String.data_append, List.append_assoc, List.cons_append,
    List.nil_append, List.cons.injEq, true_and] at hd
  obtain ⟨hu, htail⟩ := slashSplit _ _ _ _ hu1 hu2 hd
  obtain ⟨hj, _⟩ := slashSplit _ _ _ _ hj1 hj2 htail
  rcases hne with h | h
  · exact h (congrArg String.mk hu)
  · exact h (congrArg String.mk hj)

/-- A variant 2 clip key never equals a variant 2 thumbnail key (for
slash-free owner and job ids), even within the same job: after the
owner and job components, one continues with `short_` and the other
with `thumb_`. -/
theorem videoThumbKeyV2_ne (u1 u2 j1 j2 : String) (i1 i2 : Nat)
    (hu1 : '/' ∉ u1.data) (hu2 : '/' ∉ u2.data)
    (hj1 : '/' ∉ j1.data) (hj2 : '/' ∉ j2.data) :
    videoKeyV2 u1 j1 i1 ≠ thumbKeyV2 u2 j2 i2 := by
  intro heq
  have hd := congrArg String.data heq
  simp only [videoKeyV2, thumbKeyV2, String.data_append, List.append_assoc,
    List.cons_append, List.nil_append, List.cons.injEq, true_and] at hd
  obtain ⟨_, htail⟩ := slashSplit _ _ _ _ hu1 hu2 hd
  have htail2 := (slashSplit _ _ _ _ hj1 hj2 htail).2
  injection htail2 with hch _
  exact absurd hch (by decide)

/-- A configuration accepted by the `JobSchema` validators reserves a
positive number of credits. -/
theorem validJobConfig_cost_pos (d c : Int) (h : validJobConfig d c = true) :
    0 < totalCostV1 d c := by
  unfold validJobConfig at h
  simp only [Bool.and_eq_true, decide_eq_true_eq] at h
  obtain ⟨⟨hsome, h1⟩, _⟩ := h
  unfold totalCostV1 costPerSegmentV1 pricesV1
  unfold pricesV1 at hsome
  split_ifs with e1 e2 e3
  · simp only [Option.getD_some]; omega
  · simp only [Option.getD_some]; omega
  · simp only [Option.getD_some]; omega
  · simp only [if_neg e1, if_neg e2, if_neg e3] at hsome
    simp at hsome

/-- One serial ledger event preserves ledger sanity. -/
theorem applyEvent_good (s : LedgerState) (e : LedgerEvent) (h : goodState s) :
    goodState (applyEvent s e) := by
  obtain ⟨hb, hj⟩ := h
  cases e with
  | submit d c =>
    simp only [applyEvent]
    split_ifs with hlt hv
    · exact ⟨hb, hj⟩
    · refine ⟨?_, ?_⟩
      · show (0 : ℤ) ≤ s.balance - totalCostV1 d c
        omega
      · intro j hjmem
        rcases List.mem_append.mp hjmem with hmem | hmem
        · exact hj j hmem
        · have : j = ⟨totalCostV1 d c, .pending⟩ := by simpa using hmem
          subst this
          exact (validJobConfig_cost_pos d c hv).le
    · refine ⟨?_, hj⟩
      show (0 : ℤ) ≤ s.balance - totalCostV1 d c
      omega
  | complete k =>
    simp only [applyEvent]
    cases hk : s.jobs[k]? with
    | none => exact ⟨hb, hj⟩
    | some j =>
      refine ⟨hb, ?_⟩
      intro x hx
      rcases List.mem_or_eq_of_mem_set hx with hmem | hx'
      · exact hj x hmem
      · subst hx'
        exact hj j (List.getElem?_mem hk)
  | fail k =>
    simp only [applyEvent]
    cases hk : s.jobs[k]? with
    | none => exact ⟨hb, hj⟩
    | some j =>
      have hjc := hj j (List.getElem?_mem hk)
      refine ⟨?_, ?_⟩
      · show (0 : ℤ) ≤ s.balance + j.creditsUsed
        omega
      · intro x hx
        rcases List.mem_or_eq_of_mem_set hx with hmem | hx'
        · exact hj x hmem
        · subst hx'
          exact hjc

/-- Any serial sequence of ledger events preserves ledger sanity. -/
theorem runEvents_good (s : LedgerState) (es : List LedgerEvent) (h : goodState s) :
    goodState (runEvents s es) := by
  induction es generalizing s with
  | nil => exact h
  | cons e es ih => exact ih _ (applyEvent_good s e h)

/-! ## Claim C1 — refund on failure -/

/-- C1, counterexample.  The claim says the refund is idempotent per
job via a `refunded` flag, so that invoking the failure handler a
second time does not increment the balance again, and that every job
reaching `failed` has its owner's balance incremented.  On the code
this fails twice over: variant 1's failure handler (`app.js`
lines 452-467) has no `refunded` flag — run twice on a job with 25
reserved credits and owner balance 75 it yields balance 125, not the
100 a single run yields — and variant 2's failure handler
(lines 1142-1156) marks the job `failed` without crediting the owner
at all. -/
theorem c1_counterexample :
    (catchV1 25 (catchV1 25 (initPS 75))).balance ≠ (catchV1 25 (initPS 75)).balance ∧
    (catchV1 25 (catchV1 25 (initPS 75))).balance = 125 ∧
    (catchV1 25 (catchV1 25 (initPS 75))).refunds = 2 ∧
    (catchV2 (initPS 75)).jobStatus = .failed ∧
    (catchV2 (initPS 75)).balance = 75 := by
  decide

/-- C1, amended: in the mongoose variant the failure handler sets the
job's status to `failed` and increments the owner's balance by the
job's reserved credits, but there is no `refunded` flag, so a second
invocation of the handler increments the balance a second time; in the
JSON-file variant the failure handler sets status `failed` and never
touches the balance. -/
theorem c1_amended (c : Int) (ps : PipeState) :
    (catchV1 c ps).jobStatus = .failed ∧
    (catchV1 c ps).balance = ps.balance + c ∧
    (catchV1 c ps).refunds = ps.refunds + 1 ∧
    (catchV1 c (catchV1 c ps)).balance = ps.balance + c + c ∧
    (catchV1 c (catchV1 c ps)).refunds = ps.refunds + 2 ∧
    (catchV2 ps).jobStatus = .failed ∧
    (catchV2 ps).balance = ps.balance :=
  ⟨rfl, rfl, rfl, rfl, rfl, rfl, rfl⟩

/-! ## Claim C3 — status transition order -/

/-- C3, counterexample.  The claim says every job passes through
`downloading` before `processing` and that no transition leaves a
terminal state.  Both parts fail on the code: variant 2's pipeline
(`app.js` lines 1067-1073) saves `processing` directly after `pending`
and `downloading` never occurs in its trace; and in variant 1 a
failure of the temp-directory removal after the job was saved as
`completed` (line 450) reaches the catch block, which moves the job
from `completed` to `failed` (lines 452-467). -/
theorem c3_counterexample :
    Status.processing ∈ (runV2 none (initPS 0)).trace ∧
    Status.downloading ∉ (runV2 none (initPS 0)).trace ∧
    (runV1 25 (some .atCleanup) (initPS 75)).trace =
      [.pending, .downloading, .processing, .completed, .failed] := by
  decide

/-- C3, amended: in the mongoose variant the saved statuses follow
`pending → downloading → processing → completed` on success and stop
at `failed` after the statuses reached so far on a fetch or transcode
failure, but an error thrown during post-completion cleanup further
transitions the job from `completed` to `failed`; the JSON-file
variant transitions `pending → processing → completed/failed` and
never enters `downloading`. -/
theorem c3_amended (c b : Int) :
    (runV1 c none (initPS b)).trace =
      [.pending, .downloading, .processing, .completed] ∧
    (runV1 c (some .atDownload) (initPS b)).trace =
      [.pending, .downloading, .failed] ∧
    (runV1 c (some .atTranscode) (initPS b)).trace =
      [.pending, .downloading, .processing, .failed] ∧
    (runV1 c (some .atCleanup) (initPS b)).trace =
      [.pending, .downloading, .processing, .completed, .failed] ∧
    (runV2 none (initPS b)).trace = [.pending, .processing, .completed] ∧
    (runV2 (some .atDownload) (initPS b)).trace = [.pending, .processing, .failed] ∧
    (runV2 (some .atTranscode) (initPS b)).trace = [.pending, .processing, .failed] :=
  ⟨rfl, rfl, rfl, rfl, rfl, rfl, rfl⟩

/-! ## Claim C6 — temp directory cleanup -/

/-- C6, counterexample.  The claim says the job's temp directory is
removed whenever the background pipeline terminates, success or
failure.  In variant 1 the removal (`app.js` line 450) sits at the end
of the try block only and the catch block (lines 452-467) performs no
cleanup, so a job failing at the download stage terminates as `failed`
with its temp directory still present. -/
theorem c6_counterexample :
    (runV1 25 (some .atDownload) (initPS 100)).jobStatus = .failed ∧
    (runV1 25 (some .atDownload) (initPS 100)).tempRemoved = false := by
  decide

/-- C6, amended: the mongoose variant removes the temp directory only
on the success path, leaving it in place when any stage fails; the
JSON-file variant removes it in a `finally` block, on both the success
and the failure path. -/
theorem c6_amended (c b : Int) :
    (runV1 c none (initPS b)).tempRemoved = true ∧
    (∀ fp : FailPoint1, (runV1 c (some fp) (initPS b)).tempRemoved = false) ∧
    (∀ fp : Option FailPoint2, (runV2 fp (initPS b)).tempRemoved = true) := by
  refine ⟨rfl, ?_, ?_⟩
  · intro fp
    cases fp <;> rfl
  · intro fp
    cases fp with
    | none => rfl
    | some f => cases f <;> rfl

/-! ## Claim C4 — clamping of the last segment window -/

/-- C4, counterexample.  The claim says a planned segment whose window
extends past the source end has its emitted duration clamped to
`max 0 (D - startTime)` and that a zero-length result raises a
`PlanError`.  The code does neither: for `D = 100`, `N = 5`, `S = 30`,
segment 5 starts at 80, its window ends at 110 past the 100-second
source, and `processSegment` (`app.js` lines 483-551) still emits
duration 30, not the clamped 20. -/
theorem c4_counterexample :
    (processSegmentV1 5 30 5 100).startTime = 80 ∧
    (processSegmentV1 5 30 5 100).startTime + (processSegmentV1 5 30 5 100).duration > 100 ∧
    (processSegmentV1 5 30 5 100).duration = 30 ∧
    (processSegmentV1 5 30 5 100).duration ≠
      max 0 (100 - (processSegmentV1 5 30 5 100).startTime) := by
  refine ⟨?_, ?_, rfl, ?_⟩ <;> norm_num [processSegmentV1]

/-- C4, amended: the emitted duration of every planned segment is the
configured per-segment duration unchanged, in both variants; no
clamping against the source duration and no zero-length validation
occurs anywhere in the planning code. -/
theorem c4_amended (i N : Nat) (S D : ℚ) :
    (processSegmentV1 i S N D).duration = S ∧
    ((planV1 N S D).all fun seg => decide (seg.duration = S)) = true ∧
    ((planV2 D).all fun seg => decide (seg.duration = 30)) = true := by
  refine ⟨rfl, ?_, ?_⟩
  · simp [planV1, processSegmentV1, List.all_eq_true]
  · simp [planV2, List.all_eq_true]

/-! ## Claim C5 — uniform segment start times -/

/-- C5: the planner assigns segment `i` (for `1 ≤ i ≤ N`) the start
time `(D / N) * (i - 1)`, consecutive start times differ by `D / N`,
and for `D = 300`, `N = 5`, `S = 30` the start times are
`[0, 60, 120, 180, 240]`, each satisfying `startTime + S ≤ D`; the
JSON-file variant, which always plans five 30-second segments,
produces the same start times for `D = 300`. -/
theorem c5_planner (D S : ℚ) (N i : Nat) (h1 : 1 ≤ i) (h2 : i ≤ N) :
    (planV1 N S D)[i - 1]? = some ⟨i, (D / (N : ℚ)) * ((i : ℚ) - 1), S⟩ ∧
    (processSegmentV1 (i + 1) S N D).startTime
      - (processSegmentV1 i S N D).startTime = D / (N : ℚ) ∧
    (planV1 5 30 300).map PlannedSegment.startTime = [0, 60, 120, 180, 240] ∧
    ((planV1 5 30 300).all fun seg => decide (seg.startTime + 30 ≤ 300)) = true ∧
    (planV2 300).map PlannedSegment.startTime = [0, 60, 120, 180, 240] := by
  have hcon1 : (planV1 5 30 300).map PlannedSegment.startTime = [0, 60, 120, 180, 240] := by
    simp [planV1, processSegmentV1, List.range_succ]
    norm_num
  have hcon2 : ((planV1 5 30 300).all fun seg => decide (seg.startTime + 30 ≤ 300)) = true := by
    simp [planV1, processSegmentV1, List.range_succ]
    norm_num
  have hcon3 : (planV2 300).map PlannedSegment.startTime = [0, 60, 120, 180, 240] := by
    simp [planV2, List.range_succ]
    norm_num
  refine ⟨?_, ?_, hcon1, hcon2, hcon3⟩
  · have hi : i - 1 < N := by omega
    rw [planV1, List.getElem?_map, List.getElem?_range hi, Option.map_some',
      Nat.sub_add_cancel h1]
    simp only [processSegmentV1, PlannedSegment.mk.injEq, and_true, true_and]
    ring_nf
  · simp only [processSegmentV1]
    push_cast
    ring

/-- C5, witness: instantiating the planner theorem at `D = 300`,
`N = 5`, `S = 30`, `i = 2` yields the second segment starting at
60 seconds. -/
theorem c5_planner_witness :
    (planV1 5 30 300)[(2 : Nat) - 1]? = some ⟨2, (300 / (5 : ℚ)) * ((2 : ℚ) - 1), 30⟩ :=
  (c5_planner 300 30 5 2 (by norm_num) (by norm_num)).1

/-! ## Claim C2 — atomicity of debit and job creation -/

/-- C2, counterexample.  The claim says debit and job-record creation
are atomic as a pair, so no reachable state holds one effect without
the other.  They are two separate persistence operations with no
rollback: in variant 1 (`app.js` lines 258-273) the debit is saved
first, so when `job.save()` throws, the store at balance 100 and cost
25 ends at balance 75 with no job record; in variant 2
(lines 931-942) the job is written first, so when `writeUsers` throws,
the job record exists while the balance still reads 100. -/
theorem c2_counterexample :
    (submitV1 ⟨100, []⟩ "owner1" 25 true false).2.balance = 75 ∧
    (submitV1 ⟨100, []⟩ "owner1" 25 true false).2.jobs = [] ∧
    (submitV2 ⟨100, []⟩ "owner1" true false).2.jobs = [⟨"owner1", 25, .pending⟩] ∧
    (submitV2 ⟨100, []⟩ "owner1" true false).2.balance = 100 := by
  decide

/-- C2, amended: when both persistence operations succeed, the debit
and the job record both become visible; but the pair is not atomic —
in the mongoose variant a failure of the job save leaves the debit
persisted with no job record, and in the JSON-file variant a failure
of the users write leaves the job record persisted with no debit.
A submission with insufficient balance is rejected with neither
effect. -/
theorem c2_amended (st : Store) (uid : String) (cost : Int) :
    (cost ≤ st.balance →
      submitV1 st uid cost true true =
        (.accepted, ⟨st.balance - cost, st.jobs ++ [⟨uid, cost, .pending⟩]⟩) ∧
      submitV1 st uid cost true false =
        (.serverError, ⟨st.balance - cost, st.jobs⟩) ∧
      submitV1 st uid cost false true = (.serverError, st)) ∧
    (st.balance < cost →
      submitV1 st uid cost true true = (.insufficientCredits, st)) ∧
    ((25 : Int) ≤ st.balance →
      submitV2 st uid true true =
        (.accepted, ⟨st.balance - 25, st.jobs ++ [⟨uid, 25, .pending⟩]⟩) ∧
      submitV2 st uid true false =
        (.serverError, ⟨st.balance, st.jobs ++ [⟨uid, 25, .pending⟩]⟩)) := by
  refine ⟨fun h => ?_, fun h => ?_, fun h => ?_⟩
  · simp [submitV1, not_lt.mpr h]
  · simp [submitV1, h]
  · simp [submitV2, not_lt.mpr h]

/-- C2, witness: with balance 100 and cost 25, the successful path
debits to 75 and persists the job. -/
theorem c2_amended_witness :
    submitV1 ⟨100, []⟩ "ownerW" 25 true true =
      (.accepted, ⟨75, [⟨"ownerW", 25, .pending⟩]⟩) := by
  have h := ((c2_amended ⟨100, []⟩ "ownerW" 25).1 (by norm_num)).1
  simpa using h

/-! ## Claim C7 — retention sweep -/

/-- C7, counterexample.  The claim says the sweeper deletes every
segment's clip and every segment's thumbnail.  The cleanup task
(`app.js` lines 628-642) only ever passes `segment.storageKey` — the
clip — to a delete command; the thumbnail key stored in
`thumbnailUrl` is never deleted, even though the job record is:
sweeping a single 8-day-old completed job with one segment attempts
the clip key only and removes the record. -/
theorem c7_counterexample :
    (cleanupV1 (fun _ => true) (retentionMs + 1)
        [⟨0, .completed, [⟨"clip1.mp4", "thumb1.jpg"⟩]⟩]).1 = [] ∧
    (cleanupV1 (fun _ => true) (retentionMs + 1)
        [⟨0, .completed, [⟨"clip1.mp4", "thumb1.jpg"⟩]⟩]).2.1 = ["clip1.mp4"] ∧
    "thumb1.jpg" ∉ (cleanupV1 (fun _ => true) (retentionMs + 1)
        [⟨0, .completed, [⟨"clip1.mp4", "thumb1.jpg"⟩]⟩]).2.1 := by
  decide

/-- C7, amended: the sweeper selects exactly the jobs with status
`completed` created more than 7 days ago; for each selected job it
attempts deletion of each segment's clip key only (thumbnails are
never deleted), then deletes the job record — record deletion does
not depend on whether any artifact delete succeeded; a completed job
aged 6 days is left untouched while one aged 8 days is removed. -/
theorem c7_amended (deleteOk : String → Bool) (now : Int) (jobs : List SweepJob) :
    ((cleanupV1 deleteOk now jobs).1 = jobs.filter fun j =>
      !(decide (j.createdAt < now - retentionMs) && decide (j.status = .completed))) ∧
    (∀ k : String, k ∈ (cleanupV1 deleteOk now jobs).2.1 ↔
      ∃ j ∈ jobs, sweepSelected now j = true ∧
        ∃ seg ∈ j.segments, seg.storageKey = k ∧ k ≠ "") ∧
    (cleanupV1 deleteOk now jobs).1 = (cleanupV1 (fun _ => false) now jobs).1 ∧
    (cleanupV1 deleteOk (14 * 86400000)
        [⟨14 * 86400000 - 6 * 86400000, .completed, [⟨"c.mp4", "t.jpg"⟩]⟩]).1 =
      [⟨14 * 86400000 - 6 * 86400000, .completed, [⟨"c.mp4", "t.jpg"⟩]⟩] ∧
    (cleanupV1 deleteOk (14 * 86400000)
        [⟨14 * 86400000 - 8 * 86400000, .completed, [⟨"c.mp4", "t.jpg"⟩]⟩]).1 = [] := by
  refine ⟨rfl, ?_, rfl, rfl, rfl⟩
  intro k
  simp only [cleanupV1, sweepSelected, attemptedDeletes, List.mem_flatten, List.mem_map,
    List.mem_filter]
  constructor
  · rintro ⟨l, ⟨j, hj, rfl⟩, hk⟩
    obtain ⟨seg, hseg, rfl⟩ := List.mem_map.mp hk
    obtain ⟨hsm, hsk⟩ := List.mem_filter.mp hseg
    exact ⟨j, hj.1, hj.2, seg, hsm, rfl, by simpa using hsk⟩
  · rintro ⟨j, hj, hsel, seg, hseg, rfl, hne⟩
    refine ⟨(j.segments.filter fun s => s.storageKey ≠ "").map (fun s => s.storageKey),
      ⟨j, ⟨hj, hsel⟩, rfl⟩, ?_⟩
    exact List.mem_map.mpr ⟨seg, List.mem_filter.mpr ⟨hseg, by simpa using hne⟩, rfl⟩

/-! ## Claim C8 — storage key scheme -/

/-- C8, counterexample.  The claim says every published storage key
follows the scheme `ownerId/jobId/artifactName`.  Variant 1's keys
(`app.js` lines 542-543) are `shorts/jobId/artifactName`: for owner
`owner1` and job `job1` the first segment's clip is stored under
`shorts/job1/segment_1.mp4`, not under the scheme's
`owner1/job1/segment_1.mp4` — the owner id appears nowhere in the
key. -/
theorem c8_counterexample :
    segmentKeyV1 "job1" 1 = "shorts/job1/segment_1.mp4" ∧
    specKeyScheme "owner1" "job1" "segment_1.mp4" = "owner1/job1/segment_1.mp4" ∧
    segmentKeyV1 "job1" 1 ≠ specKeyScheme "owner1" "job1" "segment_1.mp4" := by
  refine ⟨rfl, rfl, ?_⟩
  decide

/-- C8, amended: variant 1 publishes under `shorts/jobId/artifactName`
(no owner id in the key) and variant 2 under
`users/ownerId/jobId/artifactName`; in both variants every published
key — clip or thumbnail — embeds the job id, so no two artifacts
(clip/clip, thumbnail/thumbnail or clip/thumbnail) of distinct
(slash-free) job ids ever collide, a clip key never collides with a
thumbnail key even within one job, and in variant 2 artifacts of
distinct owners never collide either. -/
theorem c8_amended (u1 u2 j1 j2 : String) (i1 i2 : Nat)
    (hu1 : '/' ∉ u1.data) (hu2 : '/' ∉ u2.data)
    (hj1 : '/' ∉ j1.data) (hj2 : '/' ∉ j2.data) :
    (j1 ≠ j2 → segmentKeyV1 j1 i1 ≠ segmentKeyV1 j2 i2) ∧
    (j1 ≠ j2 → thumbKeyV1 j1 i1 ≠ thumbKeyV1 j2 i2) ∧
    segmentKeyV1 j1 i1 ≠ thumbKeyV1 j2 i2 ∧
    (u1 ≠ u2 ∨ j1 ≠ j2 → videoKeyV2 u1 j1 i1 ≠ videoKeyV2 u2 j2 i2) ∧
    (u1 ≠ u2 ∨ j1 ≠ j2 → thumbKeyV2 u1 j1 i1 ≠ thumbKeyV2 u2 j2 i2) ∧
    videoKeyV2 u1 j1 i1 ≠ thumbKeyV2 u2 j2 i2 :=
  ⟨fun h => segmentKeyV1_inj j1 j2 i1 i2 hj1 hj2 h,
   fun h => thumbKeyV1_inj j1 j2 i1 i2 hj1 hj2 h,
   segmentThumbKeyV1_ne j1 j2 i1 i2 hj1 hj2,
   fun h => videoKeyV2_inj u1 u2 j1 j2 i1 i2 hu1 hu2 hj1 hj2 h,
   fun h => thumbKeyV2_inj u1 u2 j1 j2 i1 i2 hu1 hu2 hj1 hj2 h,
   videoThumbKeyV2_ne u1 u2 j1 j2 i1 i2 hu1 hu2 hj1 hj2⟩

/-- C8, witness: at concrete ids, clip and thumbnail keys of distinct
jobs differ, a clip key differs from a thumbnail key of the same job,
and variant 2 keys of distinct owners differ. -/
theorem c8_amended_witness :
    segmentKeyV1 "jobA" 1 ≠ segmentKeyV1 "jobB" 1 ∧
    thumbKeyV1 "jobA" 1 ≠ thumbKeyV1 "jobB" 1 ∧
    segmentKeyV1 "jobA" 1 ≠ thumbKeyV1 "jobA" 1 ∧
    videoKeyV2 "alice" "jobA" 1 ≠ videoKeyV2 "bob" "jobA" 1 ∧
    thumbKeyV2 "alice" "jobA" 1 ≠ thumbKeyV2 "bob" "jobA" 1 ∧
    videoKeyV2 "alice" "jobA" 1 ≠ thumbKeyV2 "alice" "jobA" 1 := by
  have h := c8_amended "alice" "bob" "jobA" "jobB" 1 1
    (by decide) (by decide) (by decide) (by decide)
  have h2 := c8_amended "alice" "bob" "jobA" "jobA" 1 1
    (by decide) (by decide) (by decide) (by decide)
  have h3 := c8_amended "alice" "alice" "jobA" "jobA" 1 1
    (by decide) (by decide) (by decide) (by decide)
  exact ⟨h.1 (by decide), h.2.1 (by decide), h3.2.2.1,
    h2.2.2.2.1 (Or.inl (by decide)), h2.2.2.2.2.1 (Or.inl (by decide)),
    h3.2.2.2.2.2⟩

/-! ## Claim C9 — non-negative balance -/

/-- C9: starting from any sane ledger state (non-negative balance,
non-negative reserved credits on every persisted job), any serial
sequence of submit/complete/fail events leaves the balance
non-negative; a submission with `balance < totalCost` is rejected
before any debit, leaving the state unchanged; and an accepted
submission debits exactly `totalCost`, an amount not exceeding the
balance at that moment. -/
theorem c9_ledger (s : LedgerState) (es : List LedgerEvent) (h : goodState s) :
    0 ≤ (runEvents s es).balance ∧
    (∀ d c : Int, s.balance < totalCostV1 d c →
      applyEvent s (.submit d c) = s) ∧
    (∀ d c : Int, totalCostV1 d c ≤ s.balance →
      (applyEvent s (.submit d c)).balance = s.balance - totalCostV1 d c) := by
  refine ⟨(runEvents_good s es h).1, fun d c hlt => ?_, fun d c hle => ?_⟩
  · simp [applyEvent, hlt]
  · simp only [applyEvent, not_lt.mpr hle, if_neg, if_false]
    split_ifs <;> rfl

/-- C9, witness: starting from balance 100 with no jobs, submitting a
5-segment 30-second job (cost 25), failing it, submitting a 2-segment
15-second job (cost 4) and completing it leaves a non-negative
balance. -/
theorem c9_ledger_witness :
    0 ≤ (runEvents ⟨100, []⟩
      [.submit 30 5, .fail 0, .submit 15 2, .complete 1]).balance :=
  (c9_ledger ⟨100, []⟩ [.submit 30 5, .fail 0, .submit 15 2, .complete 1]
    (by constructor <;> simp)).1

/-! ## Claim C10 — job records are owner-scoped -/

/-- C10: in both variants the job-detail lookup matches on the job id
and the requesting owner's id together, so a returned job always
belongs to the requester, and a job id owned by a different user (or
no job at all) yields the not-found outcome. -/
theorem c10_ownership (jobs : List JobView) (uid pid : String) :
    (∀ j : JobView, getJobV1 jobs uid pid = some j → j.userId = uid ∧ j.id = pid) ∧
    (∀ j : JobView, getJobV2 jobs uid pid = some j → j.userId = uid ∧ j.id = pid) ∧
    ((∀ j ∈ jobs, j.id = pid → j.userId ≠ uid) →
      getJobV1 jobs uid pid = none ∧ getJobV2 jobs uid pid = none) := by
  refine ⟨fun j hj => ?_, fun j hj => ?_, fun hall => ⟨?_, ?_⟩⟩
  · have hp := List.find?_some hj
    simp only [Bool.and_eq_true, decide_eq_true_eq] at hp
    exact ⟨hp.2, hp.1⟩
  · have hp := List.find?_some hj
    simp only [Bool.and_eq_true, decide_eq_true_eq] at hp
    exact ⟨hp.2, hp.1⟩
  · refine List.find?_eq_none.mpr fun j hj => ?_
    simp only [Bool.and_eq_true, decide_eq_true_eq, not_and]
    exact fun hid => hall j hj hid
  · refine List.find?_eq_none.mpr fun j hj => ?_
    simp only [Bool.and_eq_true, decide_eq_true_eq, not_and]
    exact fun hid => hall j hj hid

/-- C10, witness: a requester who does not own job `jobA` gets
not-found from both lookups. -/
theorem c10_ownership_witness :
    getJobV1 [⟨"jobA", "alice"⟩] "mallory" "jobA" = none ∧
    getJobV2 [⟨"jobA", "alice"⟩] "mallory" "jobA" = none :=
  (c10_ownership [⟨"jobA", "alice"⟩] "mallory" "jobA").2.2 (by decide)
